import Mathlib

/-!
Verification of the answer-resolution and explanation-cache engine of the
lebentestbot quiz bot.  The Go source is shallowly embedded: the SQLite
tables become in-memory lists, the database operations become pure state
transformers, and the callback handler is split into its synchronous part
and the detached background (goroutine) part, with the outcome of the
external AI call passed in as a parameter.
-/

namespace LebenTestBot

/-- Mirrors models.Question: a question from assets/questions.json.
RightAnswer is -1 when the authoritative answer is unknown. -/
structure Question where
  Number : Int
  QuestionText : String
  Answers : List String
  RightAnswer : Int
  Category : String
  Image : String
deriving DecidableEq, Repr

/-- Mirrors models.UserActivity and the user_activity table row. -/
structure UserActivity where
  UserID : Int
  QuestionNumber : Int
  AnswerNumber : Int
  Correct : Bool
  Timestamp : Int
deriving DecidableEq, Repr

/-- Mirrors a row of the deepseek_cache table (models.DeepseekCache without
the key, which indexes the association list). -/
structure DeepseekCacheRow where
  Response : String
  RightAnswer : Int
deriving DecidableEq, Repr

/-- The persistent state: the user_activity table in insertion order and the
deepseek_cache table as an association list keyed by question_number
(the primary key, so at most one live row per key). -/
structure DBState where
  user_activity : List UserActivity
  deepseek_cache : List (Int × DeepseekCacheRow)
deriving DecidableEq, Repr

/-- database.SaveUserActivity: INSERT INTO user_activity. -/
def SaveUserActivity (db : DBState) (userID questionNumber answerNumber : Int)
    (correct : Bool) (ts : Int) : DBState :=
  { db with user_activity :=
      db.user_activity ++ [⟨userID, questionNumber, answerNumber, correct, ts⟩] }

/-- database.GetUserStats: the two COUNT(*) queries over user_activity,
returning (correct, incorrect). -/
def GetUserStats (db : DBState) (userID : Int) : Nat × Nat :=
  ((db.user_activity.filter fun u => u.UserID == userID && u.Correct).length,
   (db.user_activity.filter fun u => u.UserID == userID && !u.Correct).length)

/-- SELECT the row with the given primary key from deepseek_cache. -/
def cacheLookup (c : List (Int × DeepseekCacheRow)) (n : Int) : Option DeepseekCacheRow :=
  (c.find? fun e => e.1 == n).map (·.2)

/-- INSERT OR REPLACE INTO deepseek_cache: any existing row with the same
primary key is replaced by the new row. -/
def cachePut (c : List (Int × DeepseekCacheRow)) (n : Int) (resp : String) (ra : Int) :
    List (Int × DeepseekCacheRow) :=
  (n, ⟨resp, ra⟩) :: c.filter fun e => !(e.1 == n)

/-- database.CacheDeepseekResponse: INSERT OR REPLACE INTO deepseek_cache. -/
def CacheDeepseekResponse (db : DBState) (questionNumber : Int) (response : String)
    (rightAnswer : Int) : DBState :=
  { db with deepseek_cache := cachePut db.deepseek_cache questionNumber response rightAnswer }

/-- database.GetCachedDeepseekResponse: returns the stored (response,
right_answer), and the no-row sentinel ("", -1) when the key is absent. -/
def GetCachedDeepseekResponse (db : DBState) (questionNumber : Int) : String × Int :=
  match cacheLookup db.deepseek_cache questionNumber with
  | none => ("", -1)
  | some r => (r.Response, r.RightAnswer)

/-- The rows of user_activity for this user with correct = 0
(the WHERE clause of GetMostFrequentIncorrectQuestions). -/
def userIncorrectRows (db : DBState) (userID : Int) : List UserActivity :=
  db.user_activity.filter fun u => u.UserID == userID && !u.Correct

/-- The number of incorrect answers this user gave to the given question. -/
def incCount (db : DBState) (userID qn : Int) : Nat :=
  ((userIncorrectRows db userID).filter fun u => u.QuestionNumber == qn).length

/-- The GROUP BY question_number, COUNT(*) result set of
GetMostFrequentIncorrectQuestions: one (question_number, count) pair per
distinct question the user answered incorrectly. -/
def incorrectCounts (db : DBState) (userID : Int) : List (Int × Nat) :=
  (((userIncorrectRows db userID).map (·.QuestionNumber)).dedup).map
    fun q => (q, incCount db userID q)

/-- ORDER BY count DESC as a relation on (question_number, count) pairs. -/
def countDesc : Int × Nat → Int × Nat → Prop := fun a b => b.2 ≤ a.2

instance : DecidableRel countDesc := fun a b => inferInstanceAs (Decidable (b.2 ≤ a.2))

instance : IsTrans (Int × Nat) countDesc := ⟨fun _ _ _ h1 h2 => le_trans h2 h1⟩

instance : IsTotal (Int × Nat) countDesc := ⟨fun a b => le_total b.2 a.2⟩

/-- database.GetMostFrequentIncorrectQuestions: GROUP BY question_number,
ORDER BY count DESC, LIMIT, returning the question numbers (the Go code
returns UserActivity values carrying only the question number). -/
def GetMostFrequentIncorrectQuestions (db : DBState) (userID : Int) (limit : Nat) : List Int :=
  ((List.insertionSort countDesc (incorrectCounts db userID)).take limit).map (·.1)

/-- ai.extractRightAnswerFromContent: returns the question's own RightAnswer
when it is a valid index into Answers and -1 otherwise; the response
content is not inspected. -/
def extractRightAnswerFromContent (content : String) (question : Question) : Int :=
  if 0 ≤ question.RightAnswer ∧ question.RightAnswer < (question.Answers.length : Int) then
    question.RightAnswer
  else
    -1

/-- The success path of ai.AnalyzeQuestion: the (content, rightAnswer) pair
returned after a successful API round trip with response content. -/
def AnalyzeQuestionSuccess (question : Question) (content : String) : String × Int :=
  (content, extractRightAnswerFromContent content question)

/-- The lookup loop over b.questions matching Number == questionNum
(first match wins), used by handleCallback and handleHelpCommand. -/
def findQuestion (qs : List Question) (n : Int) : Option Question :=
  qs.find? fun q => q.Number == n

/-- bot.loadQuestions after JSON decoding: the loop that appends every
question whose Number is not -1 to validQuestions. -/
def loadQuestions (questions : List Question) : List Question :=
  questions.foldl
    (fun validQuestions q => if q.Number ≠ -1 then validQuestions ++ [q] else validQuestions) []

/-- The guarded choice-list access of handleCallback (lines 349-352, 364-367
and 441-444): the answer text when the index is in range, "Unknown"
otherwise.  The list access carries a bounds proof, so it is total. -/
def answerTextOr (question : Question) (idx : Int) : String :=
  if h : 0 ≤ idx ∧ idx < (question.Answers.length : Int) then
    question.Answers.get ⟨idx.toNat, by omega⟩
  else
    "Unknown"

/-- State after the synchronous part of bot.handleCallback (lines 310-377):
the cache consultation, the correctness decision, the unconditional
SaveUserActivity, and whether the verdict was sent immediately
(rightAnswer different from -1) or the goroutine is about to launch. -/
structure SyncState where
  db : DBState
  rightAnswer : Int
  cachedResponse : String
  isCorrect : Bool
  immediate : Bool
deriving DecidableEq, Repr

/-- The synchronous part of bot.handleCallback after the question lookup. -/
def handleCallbackSync (db : DBState) (question : Question)
    (userID questionNum answerNum ts : Int) : SyncState :=
  let cached := GetCachedDeepseekResponse db questionNum
  let rightAnswer := if cached.2 ≠ -1 then cached.2 else question.RightAnswer
  let cachedResponse := if cached.2 ≠ -1 then cached.1 else ""
  let isCorrect := if rightAnswer ≠ -1 then answerNum == rightAnswer else false
  let db1 := SaveUserActivity db userID questionNum answerNum isCorrect ts
  ⟨db1, rightAnswer, cachedResponse, isCorrect, rightAnswer != -1⟩

/-- Outcome of the detached goroutine of bot.handleCallback: the database
after any cache write, the number of AI Adapter invocations it performed,
and the correctness verdict it computed for the message edit (none when
the answer stayed unresolved or the AI call failed). -/
structure AsyncOutcome where
  db : DBState
  aiCalls : Nat
  verdict : Option Bool
deriving DecidableEq, Repr

/-- The final block of the goroutine (lines 427-456): the verdict is
computed only when rightAnswer is not -1. -/
def asyncFinal (db : DBState) (aiCalls : Nat) (answerNum rightAnswer : Int) : AsyncOutcome :=
  ⟨db, aiCalls, if rightAnswer != -1 then some (answerNum == rightAnswer) else none⟩

/-- The goroutine body of bot.handleCallback (lines 380-457): re-check the
cache, otherwise call the AI (its outcome passed as ai, none meaning
failure or timeout) and cache the result.  rightAnswer0 and
cachedResponse0 are the variables captured from the synchronous part. -/
def handleCallbackAsync (db : DBState) (question : Question) (questionNum answerNum : Int)
    (rightAnswer0 : Int) (cachedResponse0 : String) (ai : Option String) : AsyncOutcome :=
  let cached := GetCachedDeepseekResponse db questionNum
  if cached.2 != -1 && cached.1 != "" then
    asyncFinal db 0 answerNum cached.2
  else if cachedResponse0 == "" then
    match ai with
    | none => ⟨db, 1, none⟩
    | some content =>
      let result := AnalyzeQuestionSuccess question content
      let db1 := CacheDeepseekResponse db questionNum result.1 result.2
      asyncFinal db1 1 answerNum result.2
  else
    asyncFinal db 0 answerNum rightAnswer0

/-- Outcome of one whole answer-submission event. -/
structure SubmissionOutcome where
  db : DBState
  aiCalls : Nat
  syncVerdict : Bool
  asyncVerdict : Option Bool
deriving DecidableEq, Repr

/-- One answer-submission event of bot.handleCallback, run to completion:
question lookup, the synchronous part, and (when the answer was not
resolved synchronously) the detached goroutine. -/
def handleSubmission (qs : List Question) (db : DBState)
    (userID questionNum answerNum ts : Int) (ai : Option String) : SubmissionOutcome :=
  match findQuestion qs questionNum with
  | none => ⟨db, 0, false, none⟩
  | some question =>
    let s := handleCallbackSync db question userID questionNum answerNum ts
    if s.immediate then
      ⟨s.db, 0, true, none⟩
    else
      let a := handleCallbackAsync s.db question questionNum answerNum
        s.rightAnswer s.cachedResponse ai
      ⟨a.db, a.aiCalls, false, a.verdict⟩

/-- A sequence of SaveUserActivity calls for one user: each record is a
(questionNumber, answerNumber, correct, timestamp) tuple. -/
def recordActivities (db : DBState) (userID : Int)
    (recs : List (Int × Int × Bool × Int)) : DBState :=
  recs.foldl (fun d r => SaveUserActivity d userID r.1 r.2.1 r.2.2.1 r.2.2.2) db

/-- Cache states reachable in the running system: starting from the empty
table, every write stores an AnalyzeQuestion result for the question that
the handlers looked up by that question number. -/
inductive CacheReachable (qs : List Question) : List (Int × DeepseekCacheRow) → Prop
  | init : CacheReachable qs []
  | write (c : List (Int × DeepseekCacheRow)) (n : Int) (q : Question) (content : String) :
      CacheReachable qs c → findQuestion qs n = some q →
      CacheReachable qs (cachePut c n content (extractRightAnswerFromContent content q))

theorem find_filter_ne (c : List (Int × DeepseekCacheRow)) (n m : Int) (h : m ≠ n) :
    (c.filter fun e => !(e.1 == n)).find? (fun e => e.1 == m) =
      c.find? (fun e => e.1 == m) := by
  induction c with
  | nil => simp
  | cons e t ih =>
    have hnm : (n == m) = false := by simp [Ne.symm h]
    have hmn : (m == n) = false := by simp [h]
    by_cases he : e.1 = n
    · have hm : (e.1 == m) = false := by simp [he, Ne.symm h]
      simp [List.filter_cons, he, List.find?_cons, hm, hnm, ih]
    · by_cases hm : e.1 = m
      · simp [List.filter_cons, he, hm, List.find?_cons, hmn]
      · simp [List.filter_cons, he, hm, List.find?_cons, ih]

theorem cacheLookup_cachePut (c : List (Int × DeepseekCacheRow)) (n m : Int)
    (resp : String) (ra : Int) :
    cacheLookup (cachePut c n resp ra) m =
      if m = n then some ⟨resp, ra⟩ else cacheLookup c m := by
  unfold cacheLookup cachePut
  by_cases h : m = n
  · subst h
    simp [List.find?_cons]
  · have hn : (n == m) = false := by simp [Ne.symm h]
    rw [if_neg h]
    simp [List.find?_cons, hn, find_filter_ne c n m h]

theorem cacheReachable_resolved {qs : List Question} {c : List (Int × DeepseekCacheRow)}
    (h : CacheReachable qs c) (n : Int) (q : Question)
    (hq : findQuestion qs n = some q) :
    ∀ row, cacheLookup c n = some row →
      row.RightAnswer = -1 ∨ row.RightAnswer = q.RightAnswer := by
  induction h with
  | init =>
    intro row hrow
    simp [cacheLookup] at hrow
  | write c' n' q' content hc hq' ih =>
    intro row hrow
    rw [cacheLookup_cachePut] at hrow
    by_cases hnn : n = n'
    · subst hnn
      rw [hq] at hq'
      injection hq' with hqq
      subst hqq
      simp at hrow
      subst hrow
      unfold extractRightAnswerFromContent
      by_cases hr : 0 ≤ q.RightAnswer ∧ q.RightAnswer < (q.Answers.length : Int)
      · right; simp [hr]
      · left; simp [hr]
    · rw [if_neg hnn] at hrow
      exact ih row hrow

/-- Claim C8 (confirmed): for every questionID, text and index, reading the
cache after a successful write for that key returns the stored (text,
index) pair, and the key is present (never Absent). -/
theorem cache_get_after_put (db : DBState) (qn : Int) (resp : String) (ra : Int) :
    GetCachedDeepseekResponse (CacheDeepseekResponse db qn resp ra) qn = (resp, ra) ∧
    cacheLookup (CacheDeepseekResponse db qn resp ra).deepseek_cache qn = some ⟨resp, ra⟩ := by
  have h : cacheLookup (CacheDeepseekResponse db qn resp ra).deepseek_cache qn =
      some ⟨resp, ra⟩ := by
    show cacheLookup (cachePut db.deepseek_cache qn resp ra) qn = _
    rw [cacheLookup_cachePut]
    simp
  exact ⟨by simp [GetCachedDeepseekResponse, h], h⟩

/-- Claim C2 (counterexample): the cache is not append-once.  With a resolved
entry (5, "A", 1) stored, a further write for key 5 with payload ("B", -1)
changes the stored pair to ("B", -1): the resolved index 1 is overwritten
with -1. -/
theorem cache_append_once_refute :
    GetCachedDeepseekResponse (CacheDeepseekResponse ⟨[], [(5, ⟨"A", 1⟩)]⟩ 5 "B" (-1)) 5 =
      ("B", -1) ∧
    GetCachedDeepseekResponse (CacheDeepseekResponse ⟨[], [(5, ⟨"A", 1⟩)]⟩ 5 "B" (-1)) 5 ≠
      ("A", 1) := by
  constructor <;> decide

/-- Claim C2 (corrected): CacheDeepseekResponse is INSERT OR REPLACE, so the
cache is last-writer-wins: a write for a key that already holds a resolved
entry replaces the stored pair with the new payload, including a payload
whose index is -1. -/
theorem cache_write_replaces (db : DBState) (qn : Int) (row : DeepseekCacheRow)
    (hrow : cacheLookup db.deepseek_cache qn = some row) (hres : row.RightAnswer ≠ -1)
    (resp : String) (ra : Int) :
    cacheLookup (CacheDeepseekResponse db qn resp ra).deepseek_cache qn = some ⟨resp, ra⟩ := by
  show cacheLookup (cachePut db.deepseek_cache qn resp ra) qn = _
  rw [cacheLookup_cachePut]
  simp

theorem cache_write_replaces_witness :
    cacheLookup (CacheDeepseekResponse ⟨[], [(7, ⟨"old", 2⟩)]⟩ 7 "new" (-1)).deepseek_cache 7 =
      some ⟨"new", -1⟩ :=
  cache_write_replaces ⟨[], [(7, ⟨"old", 2⟩)]⟩ 7 ⟨"old", 2⟩ (by decide) (by decide) "new" (-1)

/-- Claim C5 (confirmed): the index returned by the AI adapter for any
response content equals the question's own RightAnswer when that lies in
[0, len(Answers)) and -1 otherwise; the content never influences it, and a
question with unknown authoritative answer is never resolved. -/
theorem analyze_resolved_index (question : Question) (content c' : String) :
    (AnalyzeQuestionSuccess question content).2 = (AnalyzeQuestionSuccess question c').2 ∧
    (0 ≤ question.RightAnswer → question.RightAnswer < (question.Answers.length : Int) →
      (AnalyzeQuestionSuccess question content).2 = question.RightAnswer) ∧
    (¬(0 ≤ question.RightAnswer ∧ question.RightAnswer < (question.Answers.length : Int)) →
      (AnalyzeQuestionSuccess question content).2 = -1) ∧
    (question.RightAnswer = -1 → (AnalyzeQuestionSuccess question content).2 = -1) := by
  unfold AnalyzeQuestionSuccess extractRightAnswerFromContent
  refine ⟨rfl, fun h1 h2 => ?_, fun h => ?_, fun h => ?_⟩
  · simp [h1, h2]
  · simp only [if_neg h]
  · have : ¬(0 ≤ question.RightAnswer ∧
        question.RightAnswer < (question.Answers.length : Int)) := by omega
    simp only [if_neg this]

theorem analyze_resolved_index_witness :
    (AnalyzeQuestionSuccess ⟨1, "q", ["a", "b"], 1, "c", ""⟩ "text").2 = 1 ∧
    (AnalyzeQuestionSuccess ⟨2, "q", ["a", "b"], -1, "c", ""⟩ "text").2 = -1 :=
  ⟨(analyze_resolved_index ⟨1, "q", ["a", "b"], 1, "c", ""⟩ "text" "other").2.1
      (by decide) (by decide),
   (analyze_resolved_index ⟨2, "q", ["a", "b"], -1, "c", ""⟩ "text" "other").2.2.2 (by decide)⟩

theorem handleCallbackAsync_user_activity (db : DBState) (question : Question)
    (questionNum answerNum rightAnswer0 : Int) (cachedResponse0 : String) (ai : Option String) :
    (handleCallbackAsync db question questionNum answerNum
        rightAnswer0 cachedResponse0 ai).db.user_activity = db.user_activity := by
  simp only [handleCallbackAsync]
  split
  · rfl
  · split
    · cases ai <;> rfl
    · rfl

theorem handleCallbackAsync_aiCalls_le (db : DBState) (question : Question)
    (questionNum answerNum rightAnswer0 : Int) (cachedResponse0 : String) (ai : Option String) :
    (handleCallbackAsync db question questionNum answerNum
        rightAnswer0 cachedResponse0 ai).aiCalls ≤ 1 := by
  simp only [handleCallbackAsync]
  split
  · exact Nat.zero_le 1
  · split
    · cases ai <;> exact Nat.le_refl 1
    · exact Nat.zero_le 1

/-- Claim C3 (confirmed): a submission on a question with known authoritative
index is resolved synchronously, with no AI call, and the persisted record
has wasCorrect equal to (submittedIndex == authoritativeAnswerIndex), for
every cache state the running system can reach. -/
theorem authoritative_sync_resolution (qs : List Question) (db : DBState)
    (userID questionNum answerNum ts : Int) (ai : Option String) (question : Question)
    (hq : findQuestion qs questionNum = some question)
    (hra : question.RightAnswer ≠ -1)
    (hreach : CacheReachable qs db.deepseek_cache) :
    (handleSubmission qs db userID questionNum answerNum ts ai).aiCalls = 0 ∧
    (handleSubmission qs db userID questionNum answerNum ts ai).syncVerdict = true ∧
    (handleSubmission qs db userID questionNum answerNum ts ai).db.user_activity =
      db.user_activity ++
        [⟨userID, questionNum, answerNum, answerNum == question.RightAnswer, ts⟩] := by
  have hcached : ∀ r, cacheLookup db.deepseek_cache questionNum = some r →
      r.RightAnswer = -1 ∨ r.RightAnswer = question.RightAnswer :=
    cacheReachable_resolved hreach questionNum question hq
  have hral : (if (GetCachedDeepseekResponse db questionNum).2 ≠ -1
      then (GetCachedDeepseekResponse db questionNum).2 else question.RightAnswer) =
      question.RightAnswer := by
    unfold GetCachedDeepseekResponse
    cases hl : cacheLookup db.deepseek_cache questionNum with
    | none => simp
    | some r =>
      rcases hcached r hl with h1 | h1 <;> simp [h1]
  have himm : (question.RightAnswer != -1) = true := by simp [hra]
  simp only [handleSubmission, hq, handleCallbackSync, hral, himm, if_true,
    SaveUserActivity]
  simp [hra]

/-- Claim C1 (counterexample): an unresolved question (RightAnswer -1, empty
cache) is submitted and the AI call fails; the claim says no Activity
Record is persisted for it at all, but the engine has already persisted
one, with the default wasCorrect = false, at submission time. -/
theorem unresolved_submission_record_refute :
    (handleSubmission [⟨7, "q", ["x", "y"], -1, "cat", ""⟩] ⟨[], []⟩
        10 7 0 0 none).db.user_activity = [⟨10, 7, 0, false, 0⟩] ∧
    (handleSubmission [⟨7, "q", ["x", "y"], -1, "cat", ""⟩] ⟨[], []⟩
        10 7 0 0 none).aiCalls = 1 := by
  constructor <;> decide

/-- Claim C1 (corrected): for a submission on an unresolved question the
engine persists exactly one Activity Record, synchronously at submission
time, with the default wasCorrect = false; the background task never
writes another Activity Record, whatever the AI outcome — in particular
the record also remains on AI failure. -/
theorem unresolved_submission_record_amended (qs : List Question) (db : DBState)
    (userID questionNum answerNum ts : Int) (ai : Option String) (question : Question)
    (hq : findQuestion qs questionNum = some question)
    (hra : question.RightAnswer = -1)
    (hcache : (GetCachedDeepseekResponse db questionNum).2 = -1) :
    (handleSubmission qs db userID questionNum answerNum ts ai).db.user_activity =
      db.user_activity ++ [⟨userID, questionNum, answerNum, false, ts⟩] ∧
    (handleSubmission qs db userID questionNum answerNum ts ai).syncVerdict = false := by
  have hral : (if (GetCachedDeepseekResponse db questionNum).2 ≠ -1
      then (GetCachedDeepseekResponse db questionNum).2 else question.RightAnswer) =
      (-1 : Int) := by
    rw [hcache]
    simp [hra]
  have himm : ((-1 : Int) != -1) = false := by decide
  simp only [handleSubmission, hq, handleCallbackSync, hral, himm, if_false,
    Bool.false_eq_true, SaveUserActivity]
  simp only [handleCallbackAsync_user_activity]
  simp

/-- Claim C4 (counterexample): two successive submissions of the same
unresolved questionID (the second after the first completed and its cache
write landed) each trigger an AI Adapter invocation — two invocations for
that questionID, refuting the at-most-one guarantee. -/
theorem ai_call_collapse_refute :
    (handleSubmission [⟨3, "q", ["a", "b", "c"], -1, "c", ""⟩] ⟨[], []⟩
        1 3 1 0 (some "expl1")).aiCalls = 1 ∧
    (handleSubmission [⟨3, "q", ["a", "b", "c"], -1, "c", ""⟩]
        (handleSubmission [⟨3, "q", ["a", "b", "c"], -1, "c", ""⟩] ⟨[], []⟩
          1 3 1 0 (some "expl1")).db
        2 3 2 1 (some "expl2")).aiCalls = 1 := by
  constructor <;> decide

/-- Claim C4 (corrected): each single submission performs at most one AI
Adapter invocation, and a submission's background task performs none when
the cache already holds a resolved entry with nonempty text; but there is
no at-most-one-per-questionID guarantee across submissions. -/
theorem ai_call_per_submission (qs : List Question) (db : DBState)
    (userID questionNum answerNum ts : Int) (ai : Option String) :
    (handleSubmission qs db userID questionNum answerNum ts ai).aiCalls ≤ 1 ∧
    (∀ question rightAnswer0 cachedResponse0,
      (GetCachedDeepseekResponse db questionNum).2 ≠ -1 →
      (GetCachedDeepseekResponse db questionNum).1 ≠ "" →
      (handleCallbackAsync db question questionNum answerNum
          rightAnswer0 cachedResponse0 ai).aiCalls = 0) := by
  constructor
  · unfold handleSubmission
    cases hq : findQuestion qs questionNum with
    | none => exact Nat.zero_le 1
    | some question =>
      by_cases himm : (handleCallbackSync db question userID questionNum answerNum ts).immediate
      · simp only [himm, if_true]
        exact Nat.zero_le 1
      · simp only [himm, if_false]
        exact handleCallbackAsync_aiCalls_le _ _ _ _ _ _ _
  · intro question rightAnswer0 cachedResponse0 h2 h1
    have hcond : ((GetCachedDeepseekResponse db questionNum).2 != -1 &&
        (GetCachedDeepseekResponse db questionNum).1 != "") = true := by
      simp [h1, h2]
    unfold handleCallbackAsync
    rw [if_pos hcond]
    rfl

theorem ai_call_per_submission_witness :
    (handleSubmission [] ⟨[], [(4, ⟨"expl", 1⟩)]⟩ 1 4 0 0 (some "x")).aiCalls ≤ 1 ∧
    (handleCallbackAsync ⟨[], [(4, ⟨"expl", 1⟩)]⟩ ⟨4, "q", ["a", "b"], -1, "c", ""⟩
        4 0 (-1) "" (some "x")).aiCalls = 0 :=
  ⟨(ai_call_per_submission [] ⟨[], [(4, ⟨"expl", 1⟩)]⟩ 1 4 0 0 (some "x")).1,
   (ai_call_per_submission [] ⟨[], [(4, ⟨"expl", 1⟩)]⟩ 1 4 0 0 (some "x")).2
      ⟨4, "q", ["a", "b"], -1, "c", ""⟩ (-1) "" (by decide) (by decide)⟩

/-- Claim C9 (counterexample): a question whose authoritative RightAnswer is
5 with only two choices: submitting index 5, which is outside
[0, len(choices)), is judged correct. -/
theorem out_of_range_correct_refute :
    (handleCallbackSync ⟨[], []⟩ ⟨2, "q", ["a", "b"], 5, "c", ""⟩ 1 2 5 0).isCorrect = true ∧
    ¬(0 ≤ (5 : Int) ∧
      (5 : Int) < (((Question.mk 2 "q" ["a", "b"] 5 "c" "").Answers.length : Int))) := by
  constructor <;> decide

/-- Claim C9 (corrected): a submitted index is judged correct only when it
equals the resolved index, so an out-of-range submission can be judged
correct only when the resolved index is itself out of range (possible only
via the question's authoritative field); whenever the resolved index lies
in [0, len(choices)) an out-of-range submission is never judged correct;
and an out-of-range index is rendered as "Unknown" by the bounds-guarded
choice lookup, which is total. -/
theorem out_of_range_verdict_amended (db : DBState) (question : Question)
    (userID questionNum answerNum ts idx : Int) :
    ((handleCallbackSync db question userID questionNum answerNum ts).isCorrect = true →
      answerNum = (handleCallbackSync db question userID questionNum answerNum ts).rightAnswer) ∧
    (0 ≤ (handleCallbackSync db question userID questionNum answerNum ts).rightAnswer →
      (handleCallbackSync db question userID questionNum answerNum ts).rightAnswer <
        (question.Answers.length : Int) →
      ¬(0 ≤ answerNum ∧ answerNum < (question.Answers.length : Int)) →
      (handleCallbackSync db question userID questionNum answerNum ts).isCorrect = false) ∧
    (¬(0 ≤ idx ∧ idx < (question.Answers.length : Int)) →
      answerTextOr question idx = "Unknown") := by
  simp only [handleCallbackSync]
  refine ⟨?_, ?_, ?_⟩
  · by_cases hr : (if (GetCachedDeepseekResponse db questionNum).2 ≠ -1
        then (GetCachedDeepseekResponse db questionNum).2 else question.RightAnswer) ≠ -1
    · simp only [if_pos hr]
      intro h
      exact beq_iff_eq.mp h
    · simp only [if_neg hr]
      intro h
      exact absurd h (by simp)
  · intro h0 hlen hout
    by_cases hr : (if (GetCachedDeepseekResponse db questionNum).2 ≠ -1
        then (GetCachedDeepseekResponse db questionNum).2 else question.RightAnswer) ≠ -1
    · simp only [if_pos hr]
      have hne : answerNum ≠ (if (GetCachedDeepseekResponse db questionNum).2 ≠ -1
          then (GetCachedDeepseekResponse db questionNum).2 else question.RightAnswer) := by
        intro he
        exact hout ⟨by omega, by omega⟩
      exact beq_eq_false_iff_ne.mpr hne
    · simp only [if_neg hr]
  · intro h
    unfold answerTextOr
    rw [dif_neg h]

theorem out_of_range_verdict_amended_witness :
    ((handleCallbackSync ⟨[], []⟩ ⟨1, "q", ["a", "b"], 0, "c", ""⟩ 1 1 3 0).isCorrect = true →
      (3 : Int) = (handleCallbackSync ⟨[], []⟩ ⟨1, "q", ["a", "b"], 0, "c", ""⟩
        1 1 3 0).rightAnswer) ∧
    (handleCallbackSync ⟨[], []⟩ ⟨1, "q", ["a", "b"], 0, "c", ""⟩ 1 1 3 0).isCorrect = false ∧
    answerTextOr ⟨1, "q", ["a", "b"], 0, "c", ""⟩ 3 = "Unknown" := by
  refine ⟨(out_of_range_verdict_amended ⟨[], []⟩ ⟨1, "q", ["a", "b"], 0, "c", ""⟩
      1 1 3 0 3).1, ?_, ?_⟩
  · exact (out_of_range_verdict_amended ⟨[], []⟩ ⟨1, "q", ["a", "b"], 0, "c", ""⟩
      1 1 3 0 3).2.1 (by decide) (by decide) (by decide)
  · exact (out_of_range_verdict_amended ⟨[], []⟩ ⟨1, "q", ["a", "b"], 0, "c", ""⟩
      1 1 3 0 3).2.2 (by decide)

theorem authoritative_sync_resolution_witness :
    (handleSubmission [⟨1, "q", ["a", "b"], 0, "c", ""⟩] ⟨[], []⟩
        5 1 0 0 none).aiCalls = 0 ∧
    (handleSubmission [⟨1, "q", ["a", "b"], 0, "c", ""⟩] ⟨[], []⟩
        5 1 0 0 none).db.user_activity = [] ++ [⟨5, 1, 0, (0 : Int) == 0, 0⟩] := by
  have h := authoritative_sync_resolution [⟨1, "q", ["a", "b"], 0, "c", ""⟩] ⟨[], []⟩
    5 1 0 0 none ⟨1, "q", ["a", "b"], 0, "c", ""⟩ (by decide) (by decide)
    CacheReachable.init
  exact ⟨h.1, h.2.2⟩

theorem unresolved_submission_record_amended_witness :
    (handleSubmission [⟨9, "q", ["a", "b"], -1, "c", ""⟩] ⟨[], []⟩
        4 9 1 2 (some "expl")).db.user_activity = [] ++ [⟨4, 9, 1, false, 2⟩] ∧
    (handleSubmission [⟨9, "q", ["a", "b"], -1, "c", ""⟩] ⟨[], []⟩
        4 9 1 2 (some "expl")).syncVerdict = false :=
  unresolved_submission_record_amended [⟨9, "q", ["a", "b"], -1, "c", ""⟩] ⟨[], []⟩
    4 9 1 2 (some "expl") ⟨9, "q", ["a", "b"], -1, "c", ""⟩ (by decide) (by decide) (by decide)

theorem loadQuestions_foldl (questions acc : List Question) :
    questions.foldl
      (fun validQuestions q =>
        if q.Number ≠ -1 then validQuestions ++ [q] else validQuestions) acc =
      acc ++ questions.filter (fun q => q.Number != -1) := by
  induction questions generalizing acc with
  | nil => simp
  | cons q t ih =>
    simp only [List.foldl_cons]
    by_cases h : q.Number = -1
    · rw [if_neg (by simp [h]), ih]
      have hb : (q.Number != -1) = false := by simp [h]
      rw [List.filter_cons, hb]
      simp
    · rw [if_pos h, ih (acc ++ [q])]
      have hb : (q.Number != -1) = true := by simp [h]
      rw [List.filter_cons, hb]
      simp

/-- Claim C10 (confirmed): loadQuestions removes exactly the questions whose
Number field is -1 — the survivors are the filter of the input on
Number different from -1, in input order (a sublist of the input). -/
theorem load_questions_filters_invalid (questions : List Question) :
    loadQuestions questions = questions.filter (fun q => q.Number != -1) ∧
    List.Sublist (loadQuestions questions) questions := by
  have h : loadQuestions questions = questions.filter (fun q => q.Number != -1) := by
    have h0 := loadQuestions_foldl questions []
    simpa [loadQuestions] using h0
  exact ⟨h, h ▸ List.filter_sublist questions⟩

theorem recordActivities_user_activity (db : DBState) (userID : Int)
    (recs : List (Int × Int × Bool × Int)) :
    (recordActivities db userID recs).user_activity =
      db.user_activity ++
        recs.map (fun r => UserActivity.mk userID r.1 r.2.1 r.2.2.1 r.2.2.2) := by
  induction recs generalizing db with
  | nil => simp [recordActivities]
  | cons r t ih =>
    show (recordActivities
        (SaveUserActivity db userID r.1 r.2.1 r.2.2.1 r.2.2.2) userID t).user_activity = _
    rw [ih]
    simp [SaveUserActivity]

theorem length_filter_partition {α : Type} (p : α → Bool) (l : List α) :
    (l.filter p).length + (l.filter (fun a => !p a)).length = l.length := by
  induction l with
  | nil => rfl
  | cons a t ih =>
    by_cases h : p a = true
    · simp [List.filter_cons, h]
      omega
    · simp [List.filter_cons, h]
      omega

/-- Claim C6 (confirmed): after N activity records are recorded for a user of
which C have wasCorrect = true, GetUserStats returns (C, N - C). -/
theorem user_stats_counts (db : DBState) (userID : Int)
    (recs : List (Int × Int × Bool × Int))
    (hdb : ∀ a ∈ db.user_activity, a.UserID ≠ userID) :
    GetUserStats (recordActivities db userID recs) userID =
      ((recs.filter fun r => r.2.2.1).length,
       recs.length - (recs.filter fun r => r.2.2.1).length) := by
  unfold GetUserStats
  rw [recordActivities_user_activity, List.filter_append, List.filter_append]
  have hnil1 : db.user_activity.filter (fun u => u.UserID == userID && u.Correct) = [] := by
    apply List.filter_eq_nil_iff.mpr
    intro a ha
    simp [hdb a ha]
  have hnil2 : db.user_activity.filter (fun u => u.UserID == userID && !u.Correct) = [] := by
    apply List.filter_eq_nil_iff.mpr
    intro a ha
    simp [hdb a ha]
  rw [hnil1, hnil2, List.filter_map, List.filter_map]
  have hc1 : List.filter
      ((fun u : UserActivity => u.UserID == userID && u.Correct) ∘
        (fun r : Int × Int × Bool × Int => UserActivity.mk userID r.1 r.2.1 r.2.2.1 r.2.2.2))
      recs = recs.filter (fun r => r.2.2.1) := by
    apply List.filter_congr
    intro r _
    simp [Function.comp]
  have hc2 : List.filter
      ((fun u : UserActivity => u.UserID == userID && !u.Correct) ∘
        (fun r : Int × Int × Bool × Int => UserActivity.mk userID r.1 r.2.1 r.2.2.1 r.2.2.2))
      recs = recs.filter (fun r => !r.2.2.1) := by
    apply List.filter_congr
    intro r _
    simp [Function.comp]
  rw [hc1, hc2]
  have hpart := length_filter_partition (fun r : Int × Int × Bool × Int => r.2.2.1) recs
  simp only [List.nil_append, List.length_map]
  rw [Prod.mk.injEq]
  exact ⟨rfl, by omega⟩

theorem user_stats_counts_witness :
    GetUserStats (recordActivities ⟨[⟨9, 1, 0, true, 0⟩], []⟩ 2
        [(1, 0, true, 1), (2, 1, false, 2), (3, 0, true, 3)]) 2 = (2, 1) := by
  have h := user_stats_counts ⟨[⟨9, 1, 0, true, 0⟩], []⟩ 2
    [(1, 0, true, 1), (2, 1, false, 2), (3, 0, true, 3)] (by decide)
  simpa using h

theorem incorrectCounts_snd (db : DBState) (userID : Int) (p : Int × Nat)
    (hp : p ∈ incorrectCounts db userID) : p.2 = incCount db userID p.1 := by
  unfold incorrectCounts at hp
  rcases List.mem_map.mp hp with ⟨q, hq, rfl⟩
  rfl

theorem incorrectCounts_mem (db : DBState) (userID q : Int)
    (h : 0 < incCount db userID q) :
    (q, incCount db userID q) ∈ incorrectCounts db userID := by
  unfold incCount at h
  rcases List.exists_mem_of_length_pos h with ⟨u, hu⟩
  have hmem := List.mem_filter.mp hu
  have hq : u.QuestionNumber = q := by simpa using hmem.2
  unfold incorrectCounts
  apply List.mem_map.mpr
  refine ⟨q, ?_, rfl⟩
  apply List.mem_dedup.mpr
  apply List.mem_map.mpr
  exact ⟨u, hmem.1, hq⟩

/-- Claim C7 (confirmed): topMissed returns at most limit question numbers,
ordered by the user's incorrect-answer count descending (each returned
question's count is at least any later one's), and no question left out
despite having incorrect answers has a strictly greater count than any
returned one. -/
theorem top_missed_ranking (db : DBState) (userID : Int) (limit : Nat) :
    (GetMostFrequentIncorrectQuestions db userID limit).length ≤ limit ∧
    (GetMostFrequentIncorrectQuestions db userID limit).Pairwise
      (fun a b => incCount db userID b ≤ incCount db userID a) ∧
    (∀ q, 0 < incCount db userID q →
      q ∉ GetMostFrequentIncorrectQuestions db userID limit →
      ∀ q' ∈ GetMostFrequentIncorrectQuestions db userID limit,
        incCount db userID q ≤ incCount db userID q') := by
  have hsort : List.Pairwise countDesc
      (List.insertionSort countDesc (incorrectCounts db userID)) :=
    List.sorted_insertionSort countDesc (incorrectCounts db userID)
  have hperm : ∀ p : Int × Nat,
      p ∈ List.insertionSort countDesc (incorrectCounts db userID) ↔
      p ∈ incorrectCounts db userID :=
    fun p => (List.perm_insertionSort countDesc (incorrectCounts db userID)).mem_iff
  refine ⟨?_, ?_, ?_⟩
  · unfold GetMostFrequentIncorrectQuestions
    rw [List.length_map]
    exact List.length_take_le limit _
  · unfold GetMostFrequentIncorrectQuestions
    apply List.pairwise_map.mpr
    have htake : List.Pairwise countDesc
        ((List.insertionSort countDesc (incorrectCounts db userID)).take limit) :=
      hsort.sublist (List.take_sublist limit _)
    apply htake.imp_of_mem
    intro a b ha hb hab
    have ha' := incorrectCounts_snd db userID a ((hperm a).mp (List.mem_of_mem_take ha))
    have hb' := incorrectCounts_snd db userID b ((hperm b).mp (List.mem_of_mem_take hb))
    rw [← ha', ← hb']
    exact hab
  · intro q hq hnot q' hq'
    unfold GetMostFrequentIncorrectQuestions at hnot hq'
    have hmem : (q, incCount db userID q) ∈
        List.insertionSort countDesc (incorrectCounts db userID) :=
      (hperm _).mpr (incorrectCounts_mem db userID q hq)
    have hsplit :
        (List.insertionSort countDesc (incorrectCounts db userID)).take limit ++
          (List.insertionSort countDesc (incorrectCounts db userID)).drop limit =
        List.insertionSort countDesc (incorrectCounts db userID) :=
      List.take_append_drop limit _
    have hdropmem : (q, incCount db userID q) ∈
        (List.insertionSort countDesc (incorrectCounts db userID)).drop limit := by
      rw [← hsplit] at hmem
      rcases List.mem_append.mp hmem with h1 | h1
      · exact absurd (List.mem_map.mpr ⟨_, h1, rfl⟩) hnot
      · exact h1
    rcases List.mem_map.mp hq' with ⟨p', hp', hpq⟩
    have hpair : ∀ x ∈ (List.insertionSort countDesc (incorrectCounts db userID)).take limit,
        ∀ y ∈ (List.insertionSort countDesc (incorrectCounts db userID)).drop limit,
        countDesc x y := by
      have h2 := hsort
      rw [← hsplit] at h2
      exact (List.pairwise_append.mp h2).2.2
    have hcd := hpair p' hp' _ hdropmem
    have hp'' := incorrectCounts_snd db userID p' ((hperm p').mp (List.mem_of_mem_take hp'))
    rw [← hpq, ← hp'']
    exact hcd

theorem top_missed_ranking_witness :
    (GetMostFrequentIncorrectQuestions
      ⟨[⟨1, 1, 0, false, 0⟩, ⟨1, 1, 0, false, 1⟩, ⟨1, 2, 0, false, 2⟩,
        ⟨1, 2, 0, false, 3⟩, ⟨1, 3, 0, false, 4⟩], []⟩ 1 2).length ≤ 2 ∧
    incCount ⟨[⟨1, 1, 0, false, 0⟩, ⟨1, 1, 0, false, 1⟩, ⟨1, 2, 0, false, 2⟩,
        ⟨1, 2, 0, false, 3⟩, ⟨1, 3, 0, false, 4⟩], []⟩ 1 3 ≤
      incCount ⟨[⟨1, 1, 0, false, 0⟩, ⟨1, 1, 0, false, 1⟩, ⟨1, 2, 0, false, 2⟩,
        ⟨1, 2, 0, false, 3⟩, ⟨1, 3, 0, false, 4⟩], []⟩ 1 1 :=
  ⟨(top_missed_ranking ⟨[⟨1, 1, 0, false, 0⟩, ⟨1, 1, 0, false, 1⟩, ⟨1, 2, 0, false, 2⟩,
      ⟨1, 2, 0, false, 3⟩, ⟨1, 3, 0, false, 4⟩], []⟩ 1 2).1,
   (top_missed_ranking ⟨[⟨1, 1, 0, false, 0⟩, ⟨1, 1, 0, false, 1⟩, ⟨1, 2, 0, false, 2⟩,
      ⟨1, 2, 0, false, 3⟩, ⟨1, 3, 0, false, 4⟩], []⟩ 1 2).2.2 3 (by decide) (by decide)
      1 (by decide)⟩

end LebenTestBot
